import Mathlib

/-!
Verification development for the family-manager repository.

Shallow embedding of the extraction pipeline (fetch → extract → sanitize →
validate, one adapter per venue) and of the recommendation history store.

Conventions of the embedding:
* Python strings are modelled as `List Char` (via `String.data` at the
  boundaries); `str.strip()` is `pyStrip`, slicing is `List.drop`/`List.take`.
* Library calls made by the repository code (`json.loads`, `llm.invoke`,
  `re.sub`, the web loader, the Firestore client, `get_weekend_forecast`)
  are parameters of the embedded functions; an operation that can raise an
  exception is modelled as `Except String _`, where `.error e` is a raised
  exception carrying `str(e)`.
* A Python function that returns a JSON-serialized payload is modelled as
  returning the corresponding `Json` value (serialization elided).
* `datetime.now()` is an explicit `now : Int` parameter; `timedelta(days=d)`
  is subtraction of `d` (one unit of the `Int` timeline per day).
-/

/-! ### Python string primitives (shared by the sanitizer code of the adapters) -/

/-- The default character class removed by Python `str.strip()`
(ASCII whitespace: space, tab, newline, carriage return, vertical tab,
form feed). -/
def isPySpace (c : Char) : Bool :=
  c == ' ' || c == '\t' || c == '\n' || c == '\r' || c == Char.ofNat 11 || c == Char.ofNat 12

/-- Python `str.strip()`: remove leading and trailing whitespace. -/
def pyStrip (l : List Char) : List Char :=
  List.rdropWhile isPySpace (List.dropWhile isPySpace l)

/-- `str.strip()` on `String`. -/
def pyStripStr (s : String) : String := String.mk (pyStrip s.data)

/-- The three-character fenced-code marker. -/
def fence : List Char := ['`', '`', '`']

/-- The fenced-code marker with the `json` language tag (7 characters). -/
def fenceJson : List Char := ['`', '`', '`', 'j', 's', 'o', 'n']

/-- The markdown-cleanup ("sanitizer") step shared verbatim by the venue
adapters, e.g. `events_tool_zoo.py` lines 97–105:
strip, drop a leading 7-character marker with language tag, then a leading
bare marker, then a trailing bare marker, and strip again.
The two leading-marker tests are sequential `if` statements in the source
(not `elif`), which the two successive conditionals reproduce. -/
def sanitize (x : List Char) : List Char :=
  let r0 := pyStrip x
  let r1 := if fenceJson.isPrefixOf r0 then r0.drop 7 else r0
  let r2 := if fence.isPrefixOf r1 then r1.drop 3 else r1
  let r3 := if fence.isSuffixOf r2 then r2.take (r2.length - 3) else r2
  pyStrip r3

/-- The sanitizer on `String`. -/
def sanitizeStr (s : String) : String := String.mk (sanitize s.data)

/-! ### JSON values

The repository validates model output with `json.loads`; parsed values are
modelled by this type. -/

/-- A parsed JSON value (numbers collapsed to `Int`; no claim inspects
numeric payloads). -/
inductive Json where
  | null
  | bool (b : Bool)
  | num (n : Int)
  | str (s : String)
  | arr (items : List Json)
  | obj (fields : List (String × Json))

/-- Python `isinstance(x, list)` on a parsed JSON value. -/
def Json.isList : Json → Bool
  | .arr _ => true
  | _ => false

/-- Field lookup in a JSON object (`none` on non-objects and missing keys). -/
def Json.getField (j : Json) (key : String) : Option Json :=
  match j with
  | .obj fields => (fields.find? (fun kv => kv.1 == key)).map (fun kv => kv.2)
  | _ => none

/-- The payload `json.dumps({"error": msg})` used by every adapter error
branch that does not keep the raw model text. -/
def errObj (msg : String) : Json := Json.obj [("error", Json.str msg)]

/-- The payload `json.dumps({"error": msg, "raw_response": raw})` used by the
JSON-decode-failure branch of the adapters. -/
def errObjRaw (msg raw : String) : Json :=
  Json.obj [("error", Json.str msg), ("raw_response", Json.str raw)]

/-- Whether an adapter result is an error payload (an object carrying an
`error` field). -/
def isErrorPayload (j : Json) : Bool := (j.getField "error").isSome

/-! ### Venue adapters

`events_tool_zoo.py` (`get_zoo_events`), `events_tool_template.py`
(`get_venue_events`) and `events_tool_olentangy_caverns.py`
(`get_olentangy_caverns_info`) are near-identical; the source duplicates the
code per venue, and the embedding mirrors that duplication.

Each adapter takes its effectful collaborators as parameters:
`fetch` is `WebBaseLoader(url).load()` returning the list of document page
contents, `invoke` is `llm.invoke` returning the response content text, and
`loads` is `json.loads`. The second component of the result records whether
the language model was invoked during the run. -/

/-- The extraction prompt of `get_zoo_events` as a function of the page
content, which the source truncates to its first 8000 characters; the fixed
instruction text (no claim depends on its wording) is abbreviated to its
first sentence. -/
def zooExtractionPrompt (page_content : String) : String :=
  "Extract all upcoming events from this Columbus Zoo and Aquarium events webpage."
    ++ String.mk (page_content.data.take 8000)

/-- The extraction prompt of the template adapter `get_venue_events`,
likewise truncating the page content to 8000 characters. -/
def venueExtractionPrompt (page_content : String) : String :=
  "Extract all upcoming events from this venue webpage."
    ++ String.mk (page_content.data.take 8000)

/-- The extraction prompt of `get_olentangy_caverns_info`, likewise
truncating the page content to 8000 characters. -/
def olentangyExtractionPrompt (page_content : String) : String :=
  "Extract operating information and any special events from this Olentangy Caverns webpage."
    ++ String.mk (page_content.data.take 8000)

/-- The validation step of `get_zoo_events` (lines 107–115): parse the
sanitized text, reject a non-list top level with a distinct error, return the
parsed list otherwise; a decode failure yields an error carrying the raw
text. -/
def zooValidate (loads : String → Except String Json) (result : String) : Json :=
  match loads result with
  | .ok events =>
      if events.isList = false then errObj "Extracted data is not a list of events"
      else events
  | .error e => errObjRaw ("Failed to parse extracted events as JSON: " ++ e) result

/-- The validation step of `get_venue_events` in the template adapter
(identical text to the zoo adapter; the source duplicates it). -/
def venueValidate (loads : String → Except String Json) (result : String) : Json :=
  match loads result with
  | .ok events =>
      if events.isList = false then errObj "Extracted data is not a list of events"
      else events
  | .error e => errObjRaw ("Failed to parse extracted events as JSON: " ++ e) result

/-- The validation step of `get_olentangy_caverns_info` (lines 97–103):
parse the sanitized text and return whatever value parses — the source
performs no top-level shape check for this adapter. -/
def olentangyValidate (loads : String → Except String Json) (result : String) : Json :=
  match loads result with
  | .ok info => info
  | .error e => errObjRaw ("Failed to parse extracted information as JSON: " ++ e) result

/-- `get_zoo_events` of `events_tool_zoo.py`: fetch the page, require a
nonempty document list, invoke the model on the extraction prompt, sanitize
and validate; the enclosing `try`/`except` turns any raised exception into
the `Failed to fetch or process events` error payload. -/
def get_zoo_events (fetch : Except String (List String))
    (invoke : String → Except String String)
    (loads : String → Except String Json) : Json × Bool :=
  match fetch with
  | .error e => (errObj ("Failed to fetch or process events: " ++ e), false)
  | .ok docs =>
      if docs.length = 0 then (errObj "Failed to load webpage content", false)
      else
        match invoke (zooExtractionPrompt (docs.headD "")) with
        | .error e => (errObj ("Failed to fetch or process events: " ++ e), true)
        | .ok raw => (zooValidate loads (sanitizeStr raw), true)

/-- `get_venue_events` of `events_tool_template.py` (same structure and
message strings as the zoo adapter, different prompt/URL constants). -/
def get_venue_events (fetch : Except String (List String))
    (invoke : String → Except String String)
    (loads : String → Except String Json) : Json × Bool :=
  match fetch with
  | .error e => (errObj ("Failed to fetch or process events: " ++ e), false)
  | .ok docs =>
      if docs.length = 0 then (errObj "Failed to load webpage content", false)
      else
        match invoke (venueExtractionPrompt (docs.headD "")) with
        | .error e => (errObj ("Failed to fetch or process events: " ++ e), true)
        | .ok raw => (venueValidate loads (sanitizeStr raw), true)

/-- `get_olentangy_caverns_info` of `events_tool_olentangy_caverns.py`:
same structure, but its validation step accepts any parsed JSON value and
its catch-all message reads `Failed to fetch or process information`. -/
def get_olentangy_caverns_info (fetch : Except String (List String))
    (invoke : String → Except String String)
    (loads : String → Except String Json) : Json × Bool :=
  match fetch with
  | .error e => (errObj ("Failed to fetch or process information: " ++ e), false)
  | .ok docs =>
      if docs.length = 0 then (errObj "Failed to load webpage content", false)
      else
        match invoke (olentangyExtractionPrompt (docs.headD "")) with
        | .error e => (errObj ("Failed to fetch or process information: " ++ e), true)
        | .ok raw => (olentangyValidate loads (sanitizeStr raw), true)

/-! ### Lexicographic string order

Python `sorted()` on a list of strings orders lexicographically by code
point; the history store sorts venue names this way. -/

/-- Lexicographic comparison of character sequences (Python string `<=`). -/
def charListLe : List Char → List Char → Bool
  | [], _ => true
  | _ :: _, [] => false
  | a :: as, b :: bs => if a < b then true else if a = b then charListLe as bs else false

/-- Python `<=` on strings. -/
def strLe (a b : String) : Prop := charListLe a.data b.data = true

instance : DecidableRel strLe := fun a b => by unfold strLe; infer_instance

theorem charListLe_total : ∀ a b : List Char, charListLe a b = true ∨ charListLe b a = true
  | [], _ => Or.inl rfl
  | _ :: _, [] => Or.inr rfl
  | a :: as, b :: bs => by
    simp only [charListLe]
    rcases lt_trichotomy a b with h | h | h
    · left; rw [if_pos h]
    · subst h
      rw [if_neg (lt_irrefl a), if_pos rfl, if_neg (lt_irrefl a), if_pos rfl]
      exact charListLe_total as bs
    · right; rw [if_pos h]

theorem charListLe_trans :
    ∀ a b c : List Char, charListLe a b = true → charListLe b c = true → charListLe a c = true
  | [], _, _, _, _ => rfl
  | _ :: _, [], _, h, _ => by simp [charListLe] at h
  | _ :: _, _ :: _, [], _, h => by simp [charListLe] at h
  | a :: as, b :: bs, c :: cs, h1, h2 => by
    simp only [charListLe] at h1 h2 ⊢
    by_cases hab : a < b
    · by_cases hbc : b < c
      · rw [if_pos (lt_trans hab hbc)]
      · by_cases hbc2 : b = c
        · subst hbc2; rw [if_pos hab]
        · rw [if_neg hbc, if_neg hbc2] at h2; exact absurd h2 (by simp)
    · by_cases hab2 : a = b
      · subst hab2
        rw [if_neg hab, if_pos rfl] at h1
        by_cases hac : a < c
        · rw [if_pos hac]
        · by_cases hac2 : a = c
          · rw [if_neg hac, if_pos hac2]
            rw [if_neg hac, if_pos hac2] at h2
            exact charListLe_trans as bs cs h1 h2
          · rw [if_neg hac, if_neg hac2] at h2; exact absurd h2 (by simp)
      · rw [if_neg hab, if_neg hab2] at h1; exact absurd h1 (by simp)

theorem charListLe_antisymm :
    ∀ a b : List Char, charListLe a b = true → charListLe b a = true → a = b
  | [], [], _, _ => rfl
  | [], _ :: _, _, h => by simp [charListLe] at h
  | _ :: _, [], h, _ => by simp [charListLe] at h
  | a :: as, b :: bs, h1, h2 => by
    simp only [charListLe] at h1 h2
    by_cases hab : a < b
    · rw [if_neg (asymm hab), if_neg (ne_of_gt hab)] at h2
      exact absurd h2 (by simp)
    · by_cases hab2 : a = b
      · subst hab2
        rw [if_neg hab, if_pos rfl] at h1 h2
        rw [charListLe_antisymm as bs h1 h2]
      · rw [if_neg hab, if_neg hab2] at h1; exact absurd h1 (by simp)

instance : IsTotal String strLe := ⟨fun a b => charListLe_total a.data b.data⟩

instance : IsTrans String strLe := ⟨fun a b c => charListLe_trans a.data b.data c.data⟩

instance : IsAntisymm String strLe :=
  ⟨fun a b h1 h2 => by
    cases a; cases b
    exact congrArg String.mk (charListLe_antisymm _ _ h1 h2)⟩

/-! ### Recommendation history store (`recommendation_db.py`)

A Firestore document of the `recommendations` collection is modelled by
`RecEntry`; the collection itself is a `List RecEntry` threaded explicitly
(Firestore `add` appends). `venues_mentioned` is an `Option` because a
stored document may lack the field entirely — the query side reads it with
`rec.get('venues_mentioned', [])`. The server-assigned document id and the
server-side `created_at` timestamp are opaque to every claim and elided. -/

structure RecEntry where
  timestamp : Int
  date : String
  venues_mentioned : Option (List String)
  events_mentioned : List String
  weather_conditions : String
  raw_suggestions : String
  created_by : String
deriving DecidableEq

/-- The `doc_data` dictionary built by `save_recommendation` (lines
107–117): `venues_mentioned` is stored as given by the caller;
`events_mentioned or []` and `weather_conditions or ''` are the Python
falsy-default idioms (`Option.getD` agrees with them, since `[] or []`
is `[]` and `'' or ''` is `''`). -/
def mkRecommendationDoc (now : Int) (dateStr raw_suggestions : String)
    (venues_mentioned : List String) (events_mentioned : Option (List String))
    (weather_conditions : Option String) : RecEntry :=
  { timestamp := now
    date := dateStr
    venues_mentioned := some venues_mentioned
    events_mentioned := events_mentioned.getD []
    weather_conditions := weather_conditions.getD ""
    raw_suggestions := raw_suggestions
    created_by := "family_manager_v1" }

/-- `RecommendationDatabase.save_recommendation`: append one document to the
collection. `now` is `datetime.now()` and `dateStr` its `%Y-%m-%d`
rendering (strftime is a library call, passed in pre-rendered). -/
def save_recommendation (now : Int) (dateStr raw_suggestions : String)
    (venues_mentioned : List String) (events_mentioned : Option (List String))
    (weather_conditions : Option String) (store : List RecEntry) : List RecEntry :=
  store ++ [mkRecommendationDoc now dateStr raw_suggestions venues_mentioned
      events_mentioned weather_conditions]

/-- Newest-first ordering on entries (Firestore
`order_by('timestamp', DESCENDING)`). -/
def tsDesc (a b : RecEntry) : Prop := b.timestamp ≤ a.timestamp

instance : DecidableRel tsDesc := fun a b => by unfold tsDesc; infer_instance

instance : IsTotal RecEntry tsDesc := ⟨fun a b => le_total b.timestamp a.timestamp⟩

instance : IsTrans RecEntry tsDesc := ⟨fun _ _ _ h1 h2 => le_trans h2 h1⟩

/-- `RecommendationDatabase.get_recent_recommendations` (lines 132–171):
`cutoff_date = now - timedelta(days=days)`, then the Firestore query
`where('timestamp', '>=', cutoff_date).order_by('timestamp', DESCENDING)`.
The query has only the lower bound the source gives it. -/
def get_recent_recommendations (now days : Int) (store : List RecEntry) : List RecEntry :=
  List.insertionSort tsDesc (store.filter (fun e => decide (now - days ≤ e.timestamp)))

/-- `RecommendationDatabase.get_recently_visited_venues` (lines 173–209):
derived from `get_recent_recommendations`; flatten each entry's
`rec.get('venues_mentioned', [])` into a `set()` and return
`sorted(list(venues))`. `List.dedup` followed by the lexicographic sort is
the set-then-sorted combination. -/
def get_recently_visited_venues (now days : Int) (store : List RecEntry) : List String :=
  let recent := get_recent_recommendations now days store
  List.insertionSort strLe ((recent.flatMap (fun r => r.venues_mentioned.getD [])).dedup)

/-! ### Orchestration history-save step (`family_manager.py`)

`save_recommendation_to_history` is a pipeline node: it receives the run's
`raw_message`, extracts venue names with a small model call, and appends to
the history store. Its effectful collaborators are the fields of
`SaveEffects`; the node returns the state delta it contributes (always the
empty dict in the source) together with the log lines it prints. -/

structure SaveEffects where
  /-- `extractor.invoke(...)` followed by `.content`; `.error` is a raised
  model-call exception. -/
  extract : Except String String
  /-- the `re.sub` fence-marker cleanup (a library call). -/
  resub : String → String
  /-- `json.loads`; `.error` is `JSONDecodeError`. -/
  loads : String → Except String Json
  /-- `get_weekend_forecast.invoke(\x7b\x7d)`. -/
  weather : Except String String
  /-- `save_recommendation(raw_suggestions, venues_mentioned,
  weather_conditions)` returning the document id; `.error` is a raised
  persistence exception (store unreachable). -/
  save : String → Json → String → Except String String

/-- Python `s[:200]` (and generally `s[:n]`). -/
def strTake (n : Nat) (s : String) : String := String.mk (s.data.take n)

/-- Lines 210–215: `venues_text = response.content.strip()`, then the
conditional `re.sub` cleanup when the text starts with a fence marker,
followed by `.strip()`. -/
def cleanupVenuesText (resub : String → String) (content : String) : String :=
  let venues_text := pyStripStr content
  if fence.isPrefixOf venues_text.data then pyStripStr (resub venues_text)
  else venues_text

/-- The body of the `try` block of `save_recommendation_to_history`
(lines 201–236): extract, clean up, parse, fetch weather, save; `.error`
is an exception escaping the block. -/
def saveHistoryBody (raw_message : String) (fx : SaveEffects) : Except String (List String) := do
  let content ← fx.extract
  let venues_text := cleanupVenuesText fx.resub content
  let venues_mentioned ← fx.loads venues_text
  let weather_forecast ← fx.weather
  let _doc_id ← fx.save raw_message venues_mentioned (strTake 200 weather_forecast)
  pure ["Saved recommendation history"]

/-- `save_recommendation_to_history` (lines 178–245): the guard for an
empty `raw_message`, the `try` block, and the catch-all `except` that logs
a warning and continues. The first component is the state delta returned to
the graph — the empty dict on every path. -/
def save_recommendation_to_history (raw_message : String) (fx : SaveEffects) :
    List (String × String) × List String :=
  if raw_message = "" then ([], ["No recommendations to save"])
  else
    match saveHistoryBody raw_message fx with
    | .ok logs => ([], logs)
    | .error e =>
        ([], ["Could not save recommendation history: " ++ e,
              "(Continuing anyway - recommendations still generated)"])

/-! ### Properties of the sanitizer (claim C1) -/

theorem dropWhile_rdropWhile_of_eq_self (p : Char → Bool) (l : List Char)
    (h : List.dropWhile p l = l) :
    List.dropWhile p (List.rdropWhile p l) = List.rdropWhile p l := by
  rcases List.rdropWhile_prefix p l with ⟨t, ht⟩
  cases hr : List.rdropWhile p l with
  | nil => simp
  | cons a r2 =>
      have hl : l = a :: (r2 ++ t) := by rw [← ht, hr]; simp
      have hpa : p a = false := by
        by_contra hpa
        have hpa2 : p a = true := by revert hpa; cases p a <;> simp
        rw [hl, List.dropWhile_cons, if_pos hpa2] at h
        have hlen : (List.dropWhile p (r2 ++ t)).length ≤ (r2 ++ t).length :=
          (List.dropWhile_sublist p).length_le
        rw [h] at hlen
        simp at hlen
      rw [List.dropWhile_cons, if_neg (by simp [hpa])]

theorem pyStrip_idem (l : List Char) : pyStrip (pyStrip l) = pyStrip l := by
  unfold pyStrip
  rw [dropWhile_rdropWhile_of_eq_self isPySpace (List.dropWhile isPySpace l)
      (List.dropWhile_idempotent isPySpace l)]
  exact List.rdropWhile_idempotent isPySpace (List.dropWhile isPySpace l)

/-- The bare fence marker is a prefix of the tagged one. -/
theorem fence_isPrefixOf_fenceJson : fence <+: fenceJson := ⟨['j', 's', 'o', 'n'], rfl⟩

/-- On already-stripped text that carries no leading or trailing fence
marker, the sanitizer is the identity. -/
theorem sanitize_eq_self_of (y : List Char) (hy : pyStrip y = y)
    (h1 : fence.isPrefixOf y = false) (h2 : fence.isSuffixOf y = false)
    (hJ : fenceJson.isPrefixOf y = false) : sanitize y = y := by
  simp [sanitize, hy, hJ, h1, h2]

/-- An input whose stripped form begins with two stacked fence markers. -/
def doubleFenced : List Char := ['`', '`', '`', '`', '`', '`', 'x']

/-- C1 (counterexample). The sanitizer of the adapters is not idempotent and
its output can retain a leading fenced-code marker: on `"``````x"` one
application yields `"```x"`, which still starts with a marker, and a second
application strips further, so `sanitize(sanitize(x)) ≠ sanitize(x)`. -/
theorem sanitize_not_idempotent :
    sanitize (sanitize doubleFenced) ≠ sanitize doubleFenced ∧
      fence.isPrefixOf (sanitize doubleFenced) = true := by decide

/-- C1 (amended). The sanitizer always returns whitespace-trimmed text, and
it is idempotent on exactly those inputs whose sanitized form retains no
leading or trailing fence marker (an input wrapped in a single fence layer,
in particular); a multiply-fenced input can leave a marker in the output,
where a second application strips further. -/
theorem sanitize_trimmed_and_conditionally_idempotent (x : List Char) :
    pyStrip (sanitize x) = sanitize x ∧
      (fence.isPrefixOf (sanitize x) = false → fence.isSuffixOf (sanitize x) = false →
        sanitize (sanitize x) = sanitize x) := by
  have htrim : pyStrip (sanitize x) = sanitize x := by
    show pyStrip (pyStrip _) = pyStrip _
    exact pyStrip_idem _
  refine ⟨htrim, fun h1 h2 => ?_⟩
  have hJ : fenceJson.isPrefixOf (sanitize x) = false := by
    rcases Bool.eq_false_or_eq_true (fenceJson.isPrefixOf (sanitize x)) with hc | hc
    · have hpre : fence <+: sanitize x :=
        fence_isPrefixOf_fenceJson.trans (List.isPrefixOf_iff_prefix.mp hc)
      rw [List.isPrefixOf_iff_prefix.mpr hpre] at h1
      exact absurd h1 (by simp)
    · exact hc
  exact sanitize_eq_self_of (sanitize x) htrim h1 h2 hJ

/-- A single-fenced input on which the sanitizer is idempotent. -/
def singleFenced : List Char :=
  ['`', '`', '`', 'j', 's', 'o', 'n', ' ', '[', '1', ']', ' ', '`', '`', '`']

/-- Witness for the amended C1 theorem at the concrete input
`"```json [1] ```"`, whose sanitized form `"[1]"` carries no marker. -/
theorem sanitize_conditionally_idempotent_witness :
    pyStrip (sanitize singleFenced) = sanitize singleFenced ∧
      sanitize (sanitize singleFenced) = sanitize singleFenced :=
  ⟨(sanitize_trimmed_and_conditionally_idempotent singleFenced).1,
    (sanitize_trimmed_and_conditionally_idempotent singleFenced).2 (by decide) (by decide)⟩

/-! ### Validator and adapter claims (C2, C3, C8, C9) -/

theorem isErrorPayload_errObj (m : String) : isErrorPayload (errObj m) = true := rfl

theorem isErrorPayload_errObjRaw (m r : String) : isErrorPayload (errObjRaw m r) = true := rfl

theorem getField_errObjRaw (m r : String) :
    (errObjRaw m r).getField "raw_response" = some (Json.str r) := rfl

/-- A `json.loads` stub that parses any text to the empty JSON array. -/
def loadsArr : String → Except String Json := fun _ => Except.ok (Json.arr [])

/-- A `json.loads` stub that parses any text to the empty JSON object. -/
def loadsObj : String → Except String Json := fun _ => Except.ok (Json.obj [])

/-- A `json.loads` stub that always raises a decode error. -/
def loadsFail : String → Except String Json := fun _ => Except.error "Expecting value"

/-- An `llm.invoke` stub answering the literal text `[]`. -/
def invokeArrText : String → Except String String := fun _ => Except.ok "[]"

/-- C2 (counterexample). The Olentangy Caverns adapter performs no top-level
shape check: on a successful parse whose top level is a list — not the
object its prompt expects — it returns the parsed value as its Ok payload
rather than any Error. -/
theorem olentangy_accepts_wrong_shape :
    (get_olentangy_caverns_info (Except.ok ["page"]) invokeArrText loadsArr).1 = Json.arr [] ∧
      isErrorPayload (get_olentangy_caverns_info (Except.ok ["page"]) invokeArrText loadsArr).1
        = false :=
  ⟨rfl, rfl⟩

/-- C2 (amended). For the list-expecting adapters (zoo and template), a
sanitized text that parses as valid JSON with a non-list top level yields
the distinct `Extracted data is not a list of events` error — never an Ok
payload and never a coercion that wraps the value in a one-element list;
the Olentangy Caverns adapter, however, has no top-level shape check and
returns Ok for any valid JSON. -/
theorem list_adapters_reject_wrong_shape (loads : String → Except String Json)
    (result : String) (j : Json) (hp : loads result = Except.ok j) (hs : j.isList = false) :
    zooValidate loads result = errObj "Extracted data is not a list of events" ∧
      venueValidate loads result = errObj "Extracted data is not a list of events" := by
  constructor <;> simp [zooValidate, venueValidate, hp, hs]

/-- Witness for the amended C2 theorem: a parse producing a top-level
object where a list is expected is rejected by the zoo validation step. -/
theorem list_adapters_reject_wrong_shape_witness :
    zooValidate loadsObj "not a list" = errObj "Extracted data is not a list of events" :=
  (list_adapters_reject_wrong_shape loadsObj "not a list" (Json.obj []) rfl rfl).1

/-- C3 (counterexample). The wrong-shape validation error of the zoo adapter
does not carry the validator input: its payload has an `error` field only,
no `raw_response`, so `error.raw_text == input` fails for shape errors. -/
theorem wrong_shape_error_drops_raw_text :
    zooValidate loadsObj "the model output" = errObj "Extracted data is not a list of events" ∧
      (zooValidate loadsObj "the model output").getField "raw_response" = none :=
  ⟨rfl, rfl⟩

/-- C3 (amended). When the sanitized text fails to parse as JSON, every
adapter's validation error carries the validator input unmodified in its
`raw_response` field (round-trip); the wrong-shape error, by contrast,
carries no raw text. -/
theorem parse_error_carries_raw_text (loads : String → Except String Json)
    (result e : String) (hp : loads result = Except.error e) :
    zooValidate loads result
        = errObjRaw ("Failed to parse extracted events as JSON: " ++ e) result ∧
      (zooValidate loads result).getField "raw_response" = some (Json.str result) ∧
      venueValidate loads result
        = errObjRaw ("Failed to parse extracted events as JSON: " ++ e) result ∧
      olentangyValidate loads result
        = errObjRaw ("Failed to parse extracted information as JSON: " ++ e) result := by
  refine ⟨?_, ?_, ?_, ?_⟩ <;>
    simp [zooValidate, venueValidate, olentangyValidate, hp, getField_errObjRaw]

/-- Witness for the amended C3 theorem at a concrete failing parse. -/
theorem parse_error_carries_raw_text_witness :
    (zooValidate loadsFail "oops").getField "raw_response" = some (Json.str "oops") :=
  (parse_error_carries_raw_text loadsFail "oops" "Expecting value" rfl).2.1

/-- C8. Every failure of the fetch or model-invocation step of the zoo and
template adapters is returned as an error payload — ordinary data — never
propagated: the adapters are total functions whose result is always either
an object carrying an `error` field or the extracted list. -/
theorem adapter_failures_are_data (fetch : Except String (List String))
    (invoke : String → Except String String) (loads : String → Except String Json) :
    (isErrorPayload (get_zoo_events fetch invoke loads).1 = true ∨
        (get_zoo_events fetch invoke loads).1.isList = true) ∧
      (isErrorPayload (get_venue_events fetch invoke loads).1 = true ∨
        (get_venue_events fetch invoke loads).1.isList = true) ∧
      (∀ e, fetch = Except.error e →
        (get_zoo_events fetch invoke loads).1
            = errObj ("Failed to fetch or process events: " ++ e) ∧
          (get_venue_events fetch invoke loads).1
            = errObj ("Failed to fetch or process events: " ++ e)) ∧
      (∀ docs e, fetch = Except.ok docs → 0 < docs.length →
        invoke (zooExtractionPrompt (docs.headD "")) = Except.error e →
        (get_zoo_events fetch invoke loads).1
          = errObj ("Failed to fetch or process events: " ++ e)) := by
  refine ⟨?_, ?_, ?_, ?_⟩
  · cases fetch with
    | error e => exact Or.inl (isErrorPayload_errObj _)
    | ok docs =>
        by_cases hd : docs.length = 0
        · simp only [get_zoo_events, hd, if_pos]
          exact Or.inl (isErrorPayload_errObj _)
        · cases hi : invoke (zooExtractionPrompt (docs.headD "")) with
          | error e => simp only [get_zoo_events, if_neg hd, hi]
                       exact Or.inl (isErrorPayload_errObj _)
          | ok raw =>
              simp only [get_zoo_events, if_neg hd, hi]
              cases hp : loads (sanitizeStr raw) with
              | error e => simp only [zooValidate, hp]
                           exact Or.inl (isErrorPayload_errObjRaw _ _)
              | ok j =>
                  cases hj : j.isList with
                  | false => simp only [zooValidate, hp, hj, if_pos]
                             exact Or.inl (isErrorPayload_errObj _)
                  | true => simp only [zooValidate, hp, hj]
                            exact Or.inr (by simp [hj])
  · cases fetch with
    | error e => exact Or.inl (isErrorPayload_errObj _)
    | ok docs =>
        by_cases hd : docs.length = 0
        · simp only [get_venue_events, hd, if_pos]
          exact Or.inl (isErrorPayload_errObj _)
        · cases hi : invoke (venueExtractionPrompt (docs.headD "")) with
          | error e => simp only [get_venue_events, if_neg hd, hi]
                       exact Or.inl (isErrorPayload_errObj _)
          | ok raw =>
              simp only [get_venue_events, if_neg hd, hi]
              cases hp : loads (sanitizeStr raw) with
              | error e => simp only [venueValidate, hp]
                           exact Or.inl (isErrorPayload_errObjRaw _ _)
              | ok j =>
                  cases hj : j.isList with
                  | false => simp only [venueValidate, hp, hj, if_pos]
                             exact Or.inl (isErrorPayload_errObj _)
                  | true => simp only [venueValidate, hp, hj]
                            exact Or.inr (by simp [hj])
  · intro e hf
    rw [hf]
    exact ⟨rfl, rfl⟩
  · intro docs e hf hlen hi
    rw [hf]
    simp only [get_zoo_events, if_neg (by omega : ¬docs.length = 0), hi]

/-- Witness for the C8 theorem: a raised fetch error surfaces as the
catch-all error payload of the zoo adapter. -/
theorem adapter_failures_are_data_witness :
    (get_zoo_events (Except.error "connection refused") invokeArrText loadsArr).1
      = errObj ("Failed to fetch or process events: " ++ "connection refused") :=
  ((adapter_failures_are_data (Except.error "connection refused") invokeArrText loadsArr).2.2.1
    "connection refused" rfl).1

/-- C9. When the page fetch yields no documents, the adapters return the
`Failed to load webpage content` error payload, and the language model is
not invoked (the call flag of the run is `false`). -/
theorem empty_docs_error_no_model_call (invoke : String → Except String String)
    (loads : String → Except String Json) :
    get_zoo_events (Except.ok []) invoke loads = (errObj "Failed to load webpage content", false) ∧
      get_venue_events (Except.ok []) invoke loads
        = (errObj "Failed to load webpage content", false) ∧
      get_olentangy_caverns_info (Except.ok []) invoke loads
        = (errObj "Failed to load webpage content", false) :=
  ⟨rfl, rfl, rfl⟩

/-! ### History store claims (C4, C5, C6, C10) -/

theorem mem_get_recent_recommendations (now days : Int) (store : List RecEntry) (e : RecEntry) :
    e ∈ get_recent_recommendations now days store ↔ e ∈ store ∧ now - days ≤ e.timestamp := by
  simp [get_recent_recommendations, List.mem_insertionSort, List.mem_filter]

theorem mem_get_recently_visited_venues (now days : Int) (store : List RecEntry) (v : String) :
    v ∈ get_recently_visited_venues now days store ↔
      ∃ r, r ∈ store ∧ now - days ≤ r.timestamp ∧ v ∈ r.venues_mentioned.getD [] := by
  simp only [get_recently_visited_venues, List.mem_insertionSort, List.mem_dedup,
    List.mem_flatMap, mem_get_recent_recommendations]
  constructor
  · rintro ⟨r, ⟨hr, hts⟩, hv⟩; exact ⟨r, hr, hts, hv⟩
  · rintro ⟨r, hr, hts, hv⟩; exact ⟨r, ⟨hr, hts⟩, hv⟩

theorem nodup_get_recently_visited_venues (now days : Int) (store : List RecEntry) :
    (get_recently_visited_venues now days store).Nodup :=
  (List.perm_insertionSort strLe _).symm.nodup (List.nodup_dedup _)

theorem sorted_get_recently_visited_venues (now days : Int) (store : List RecEntry) :
    List.Sorted strLe (get_recently_visited_venues now days store) :=
  List.sorted_insertionSort strLe _

/-- C4. `get_recently_visited_venues` is derived from
`get_recent_recommendations`: its result never contains a duplicate name
even when a venue appears in several entries of the window, every returned
name occurs in some entry returned by `get_recent_recommendations` for the
same window, and when no entry matches the result is the empty list — never
an error. -/
theorem recentVenues_nodup_subset_of_recentEntries (now days : Int) (store : List RecEntry) :
    (get_recently_visited_venues now days store).Nodup ∧
      (∀ v, v ∈ get_recently_visited_venues now days store →
        ∃ r, r ∈ get_recent_recommendations now days store ∧ v ∈ r.venues_mentioned.getD []) ∧
      (get_recent_recommendations now days store = [] →
        get_recently_visited_venues now days store = []) := by
  refine ⟨nodup_get_recently_visited_venues now days store, fun v hv => ?_, fun h => ?_⟩
  · simp only [get_recently_visited_venues, List.mem_insertionSort, List.mem_dedup,
      List.mem_flatMap] at hv
    exact hv
  · simp [get_recently_visited_venues, h, List.insertionSort]

/-- An entry mentioning the same venue twice, inside the query window used
by the witnesses below. -/
def demoEntry : RecEntry :=
  { timestamp := 8
    date := "2026-01-05"
    venues_mentioned := some ["Columbus Zoo", "Columbus Zoo"]
    events_mentioned := []
    weather_conditions := "sunny"
    raw_suggestions := "zoo twice"
    created_by := "family_manager_v1" }

/-- Witness for the C4 theorem on a one-entry store that repeats a venue
name, plus the empty-store case. -/
theorem recentVenues_nodup_subset_witness :
    (get_recently_visited_venues 10 5 [demoEntry]).Nodup ∧
      (∃ r, r ∈ get_recent_recommendations 10 5 [demoEntry] ∧
        "Columbus Zoo" ∈ r.venues_mentioned.getD []) ∧
      get_recently_visited_venues 10 5 [] = [] :=
  ⟨(recentVenues_nodup_subset_of_recentEntries 10 5 [demoEntry]).1,
    (recentVenues_nodup_subset_of_recentEntries 10 5 [demoEntry]).2.1 "Columbus Zoo" (by decide),
    (recentVenues_nodup_subset_of_recentEntries 10 5 []).2.2 rfl⟩

/-- An entry whose timestamp lies in the future of the query's `now`. -/
def futureEntry : RecEntry :=
  { timestamp := 5
    date := "2026-01-09"
    venues_mentioned := some ["The Wilds"]
    events_mentioned := []
    weather_conditions := ""
    raw_suggestions := "future-dated"
    created_by := "family_manager_v1" }

/-- C5 (counterexample). The Firestore query of
`get_recent_recommendations` has only a lower bound: with `now = 0` and
`days = 3`, a store entry with timestamp `5` — outside the claimed closed
interval `[now - days, now]` — is returned. -/
theorem future_entry_included :
    get_recent_recommendations 0 3 [futureEntry] = [futureEntry] ∧
      ¬(futureEntry.timestamp ≤ 0) := by decide

/-- C5 (amended). `get_recent_recommendations` returns exactly the entries
with `timestamp ≥ now - days` (closed lower bound, no upper bound at
`now`), ordered newest-first by timestamp. -/
theorem recentEntries_lower_bound_sorted (now days : Int) (store : List RecEntry) :
    (∀ e, e ∈ get_recent_recommendations now days store ↔
        e ∈ store ∧ now - days ≤ e.timestamp) ∧
      List.Sorted tsDesc (get_recent_recommendations now days store) :=
  ⟨mem_get_recent_recommendations now days store, List.sorted_insertionSort tsDesc _⟩

/-- Witness for the amended C5 theorem on a concrete one-entry store. -/
theorem recentEntries_lower_bound_sorted_witness :
    (futureEntry ∈ get_recent_recommendations 0 3 [futureEntry] ↔
        futureEntry ∈ [futureEntry] ∧ (0 : Int) - 3 ≤ futureEntry.timestamp) ∧
      List.Sorted tsDesc (get_recent_recommendations 0 3 [futureEntry]) :=
  ⟨(recentEntries_lower_bound_sorted 0 3 [futureEntry]).1 futureEntry,
    (recentEntries_lower_bound_sorted 0 3 [futureEntry]).2⟩

/-- C6 (counterexample). `save_recommendation` deduplicates nothing: a
caller-supplied `venues_mentioned` list with a repeated name is persisted
with the duplicate intact, so the stored entry violates the claimed
no-duplicates invariant. -/
theorem save_keeps_duplicate_names :
    save_recommendation 0 "2026-01-04" "raw" ["Columbus Zoo", "Columbus Zoo"] none none []
        = [mkRecommendationDoc 0 "2026-01-04" "raw" ["Columbus Zoo", "Columbus Zoo"] none none] ∧
      ¬((mkRecommendationDoc 0 "2026-01-04" "raw" ["Columbus Zoo", "Columbus Zoo"]
          none none).venues_mentioned.getD []).Nodup := by decide

/-- C6 (amended). `save_recommendation` appends exactly one entry and stores
the caller-supplied `venues_mentioned` list verbatim — duplicates included;
no per-entry deduplication happens at save time (names are deduplicated
only at query time, by `get_recently_visited_venues`). -/
theorem save_appends_entry_verbatim (now : Int) (dateStr raw : String)
    (venues : List String) (ev : Option (List String)) (w : Option String)
    (store : List RecEntry) :
    (save_recommendation now dateStr raw venues ev w store).dropLast = store ∧
      (save_recommendation now dateStr raw venues ev w store).getLast?
        = some (mkRecommendationDoc now dateStr raw venues ev w) ∧
      (mkRecommendationDoc now dateStr raw venues ev w).venues_mentioned = some venues :=
  ⟨List.dropLast_concat, List.getLast?_concat _, rfl⟩

/-- An entry lacking the `venues_mentioned` field entirely. -/
def bareEntry : RecEntry :=
  { timestamp := 1
    date := "2026-01-02"
    venues_mentioned := none
    events_mentioned := []
    weather_conditions := ""
    raw_suggestions := "no venues field"
    created_by := "family_manager_v1" }

/-- C10. A stored entry that lacks the `venues_mentioned` field contributes
no venue names: adding it to any store leaves `get_recently_visited_venues`
unchanged, and the query returns normally (it is a total function). -/
theorem missing_venues_field_is_safe (now days : Int) (store : List RecEntry)
    (e : RecEntry) (h : e.venues_mentioned = none) :
    get_recently_visited_venues now days (e :: store)
      = get_recently_visited_venues now days store := by
  apply List.eq_of_perm_of_sorted ?_ (sorted_get_recently_visited_venues now days _)
    (sorted_get_recently_visited_venues now days _)
  rw [List.perm_ext_iff_of_nodup (nodup_get_recently_visited_venues now days _)
    (nodup_get_recently_visited_venues now days _)]
  intro v
  rw [mem_get_recently_visited_venues, mem_get_recently_visited_venues]
  constructor
  · rintro ⟨r, hr, hts, hv⟩
    rcases List.mem_cons.mp hr with he | hr2
    · subst he; rw [h] at hv; exact absurd hv (by simp)
    · exact ⟨r, hr2, hts, hv⟩
  · rintro ⟨r, hr, hts, hv⟩
    exact ⟨r, List.mem_cons_of_mem e hr, hts, hv⟩

/-- Witness for the C10 theorem at a concrete field-less entry. -/
theorem missing_venues_field_is_safe_witness :
    get_recently_visited_venues 1 1 [bareEntry] = get_recently_visited_venues 1 1 [] :=
  missing_venues_field_is_safe 1 1 [] bareEntry rfl

/-! ### Orchestration claim (C7) -/

/-- C7. The history-save node of the orchestration never aborts the
pipeline: on every path — the empty-message guard, a successful save, and
any raised exception inside the `try` block — it returns normally with the
empty state delta; and when the history-store append itself raises, the
node returns the empty delta together with the logged warning. -/
theorem history_save_never_aborts_pipeline (raw_message : String) (fx : SaveEffects) :
    (save_recommendation_to_history raw_message fx).1 = [] ∧
      (∀ s j w e, raw_message ≠ "" → fx.extract = Except.ok s →
        fx.loads (cleanupVenuesText fx.resub s) = Except.ok j →
        fx.weather = Except.ok w →
        fx.save raw_message j (strTake 200 w) = Except.error e →
        save_recommendation_to_history raw_message fx
          = ([], ["Could not save recommendation history: " ++ e,
                  "(Continuing anyway - recommendations still generated)"])) := by
  constructor
  · unfold save_recommendation_to_history
    by_cases h : raw_message = ""
    · rw [if_pos h]
    · rw [if_neg h]
      cases saveHistoryBody raw_message fx <;> rfl
  · intro s j w e hraw hs hl hw hsave
    have hb : saveHistoryBody raw_message fx = Except.error e := by
      unfold saveHistoryBody
      show Except.bind fx.extract _ = _
      rw [hs]
      show Except.bind (fx.loads (cleanupVenuesText fx.resub s)) _ = _
      rw [hl]
      show Except.bind fx.weather _ = _
      rw [hw]
      show Except.bind (fx.save raw_message j (strTake 200 w)) _ = _
      rw [hsave]
      rfl
    unfold save_recommendation_to_history
    rw [if_neg hraw, hb]

/-- The effect environment of a run whose history-store append raises a
connection error while everything before it succeeds. -/
def failingSaveFx : SaveEffects :=
  { extract := Except.ok "[]"
    resub := id
    loads := fun _ => Except.ok (Json.arr [])
    weather := Except.ok "sunny"
    save := fun _ _ _ => Except.error "connection error" }

/-- Witness for the C7 theorem: with the store unreachable, the node still
returns the empty state delta, carrying the logged warning. -/
theorem history_save_never_aborts_pipeline_witness :
    (save_recommendation_to_history "take the kids to the zoo" failingSaveFx).1 = [] ∧
      save_recommendation_to_history "take the kids to the zoo" failingSaveFx
        = ([], ["Could not save recommendation history: " ++ "connection error",
                "(Continuing anyway - recommendations still generated)"]) :=
  ⟨(history_save_never_aborts_pipeline "take the kids to the zoo" failingSaveFx).1,
    (history_save_never_aborts_pipeline "take the kids to the zoo" failingSaveFx).2
      "[]" (Json.arr []) "sunny" "connection error" (by decide) rfl rfl rfl rfl⟩

/-- Witness for the amended C6 theorem at a concrete save. -/
theorem save_appends_entry_verbatim_witness :
    (save_recommendation 0 "2026-01-04" "r" ["Columbus Zoo"] none none []).getLast?
      = some (mkRecommendationDoc 0 "2026-01-04" "r" ["Columbus Zoo"] none none) :=
  (save_appends_entry_verbatim 0 "2026-01-04" "r" ["Columbus Zoo"] none none []).2.1

/-- Witness for the C9 theorem at concrete stub collaborators. -/
theorem empty_docs_error_no_model_call_witness :
    get_zoo_events (Except.ok []) invokeArrText loadsArr
      = (errObj "Failed to load webpage content", false) :=
  (empty_docs_error_no_model_call invokeArrText loadsArr).1
